import Mathlib

/-!
# Verification of `static/script.js` (promptpulse)

Shallow embedding of the client-side UI helper script emitted by the
generator of this repository.  The script defines:

* `openModal(id)` / `closeModal(id)`  — set `display` of the element with
  the given id to `"flex"` / `"none"`;
* `showTerms()`                       — `openModal("termsModal")`;
* a `DOMContentLoaded` handler that wires `loginBtn` / `signupBtn` click
  handlers when those elements exist;
* `updateUsageBar(current, total)`    — sets the width and background
  color of the `usageBar` element from `min((current/total)*100, 100)`.

The DOM is modelled as an association list from element ids to elements;
`document.getElementById` is `List.lookup` (first match, `none` when the
id is absent).  JavaScript property access on the result of a failed
lookup (`null.style`) raises a `TypeError`, modelled with `Except`.

JavaScript numbers are modelled by `JSNum`: an exact rational for finite
values plus the IEEE special values `NaN`, `+Infinity` and `-Infinity`
(float rounding and signed zero are elided; every value the claims touch
is exactly representable).  The JS operations used by the script —
division, multiplication, `Math.min`, `<` — are given their ECMAScript
semantics on these values: division by zero yields a signed infinity (or
`NaN` for `0/0`), comparisons involving `NaN` are false, and `Math.min`
returns `NaN` when either argument is `NaN`.
-/

/-- A JavaScript number: a finite (exact) rational, `NaN`, or a signed
infinity. -/
inductive JSNum where
  | num (q : ℚ)
  | nan
  | inf
  | negInf
deriving DecidableEq

namespace JSNum

/-- JavaScript division `a / b` (ECMAScript §6.1.6.1.5, signed zero
elided: the model's sole zero behaves as `+0`). -/
def jsDiv : JSNum → JSNum → JSNum
  | nan, _ => nan
  | _, nan => nan
  | inf, inf => nan
  | inf, negInf => nan
  | negInf, inf => nan
  | negInf, negInf => nan
  | inf, num b => if b < 0 then negInf else inf
  | negInf, num b => if b < 0 then inf else negInf
  | num _, inf => num 0
  | num _, negInf => num 0
  | num a, num b =>
    if b = 0 then
      if a = 0 then nan else if 0 < a then inf else negInf
    else num (a / b)

/-- JavaScript multiplication `a * b` (ECMAScript §6.1.6.1.4). -/
def jsMul : JSNum → JSNum → JSNum
  | nan, _ => nan
  | _, nan => nan
  | inf, inf => inf
  | inf, negInf => negInf
  | negInf, inf => negInf
  | negInf, negInf => inf
  | inf, num b => if b = 0 then nan else if 0 < b then inf else negInf
  | num a, inf => if a = 0 then nan else if 0 < a then inf else negInf
  | negInf, num b => if b = 0 then nan else if 0 < b then negInf else inf
  | num a, negInf => if a = 0 then nan else if 0 < a then negInf else inf
  | num a, num b => num (a * b)

/-- JavaScript `<` comparison: false whenever either operand is `NaN`. -/
def jsLt : JSNum → JSNum → Bool
  | nan, _ => false
  | _, nan => false
  | inf, _ => false
  | _, inf => true
  | negInf, negInf => false
  | negInf, _ => true
  | _, negInf => false
  | num a, num b => decide (a < b)

/-- JavaScript `<=` comparison: false whenever either operand is `NaN`. -/
def jsLe : JSNum → JSNum → Bool
  | nan, _ => false
  | _, nan => false
  | _, inf => true
  | inf, _ => false
  | negInf, _ => true
  | _, negInf => false
  | num a, num b => decide (a ≤ b)

/-- JavaScript `Math.min` of two arguments: `NaN` if either argument is
`NaN`, otherwise the smaller argument. -/
def jsMin (a b : JSNum) : JSNum :=
  match a, b with
  | nan, _ => nan
  | _, nan => nan
  | x, y => if jsLt x y then x else y

/-- Rendering of a JS number by string concatenation (`percentage + "%"`).
`NaN` and the infinities print as in JS; a finite integer prints as its
decimal numeral.  (A finite non-integer prints via the `toString` of the
rational; the decimal expansion JS would print is not needed by any
value reached here.) -/
def jsNumToString : JSNum → String
  | nan => "NaN"
  | inf => "Infinity"
  | negInf => "-Infinity"
  | num q => if q.den = 1 then toString q.num else toString q

end JSNum

/-- The inline CSS style of an element: the three properties the script
touches (`display`, `width`, `backgroundColor`). -/
structure Style where
  display : String
  width : String
  backgroundColor : String
deriving DecidableEq

/-- A click handler installed by the script.  The script only ever
installs closures of the form `() => openModal(id)`. -/
inductive Handler where
  | openModalH (id : String)
deriving DecidableEq

/-- A DOM element: its inline style and its `onclick` slot. -/
structure Element where
  style : Style
  onclick : Option Handler
deriving DecidableEq

/-- The view tree: an association list from element id to element.
`document.getElementById` is `List.lookup` (first match wins, as in the
DOM, where ids are expected unique). -/
abbrev Doc := List (String × Element)

/-- A JavaScript runtime error.  The script can only raise a `TypeError`
(property access on `null`). -/
inductive JSError where
  | typeError
deriving DecidableEq

/-- Mutate the first element with the given id (the one
`document.getElementById` returns), leaving the rest of the tree
unchanged. -/
def updateElem (d : Doc) (id : String) (f : Element → Element) : Doc :=
  match d with
  | [] => []
  | (k, e) :: rest =>
    if k = id then (k, f e) :: rest else (k, e) :: updateElem rest id f

/-- `e.style.display = v` on a single element. -/
def setDisplay (v : String) (e : Element) : Element :=
  { e with style := { e.style with display := v } }

/-- `e.style.width = v` on a single element. -/
def setWidth (v : String) (e : Element) : Element :=
  { e with style := { e.style with width := v } }

/-- `e.style.backgroundColor = v` on a single element. -/
def setBG (v : String) (e : Element) : Element :=
  { e with style := { e.style with backgroundColor := v } }

/-- `e.onclick = h` on a single element. -/
def setOnclick (h : Handler) (e : Element) : Element :=
  { e with onclick := some h }

/-- `function openModal(id) { document.getElementById(id).style.display = "flex"; }`
When the lookup returns `null`, the `.style` access raises a `TypeError`. -/
def openModal (id : String) (d : Doc) : Except JSError Doc :=
  match List.lookup id d with
  | none => Except.error JSError.typeError
  | some _ => Except.ok (updateElem d id (setDisplay "flex"))

/-- `function closeModal(id) { document.getElementById(id).style.display = "none"; }`
Same `TypeError` on a missing id. -/
def closeModal (id : String) (d : Doc) : Except JSError Doc :=
  match List.lookup id d with
  | none => Except.error JSError.typeError
  | some _ => Except.ok (updateElem d id (setDisplay "none"))

/-- `function showTerms() { openModal("termsModal"); }` -/
def showTerms (d : Doc) : Except JSError Doc :=
  openModal "termsModal" d

/-- Run an installed click handler against the document. -/
def runHandler (h : Handler) (d : Doc) : Except JSError Doc :=
  match h with
  | Handler.openModalH id => openModal id d

/-- The `DOMContentLoaded` handler: look up `loginBtn` and `signupBtn`;
for each one that exists, install the corresponding `onclick` closure.
Both lookups are performed on the initial tree, as in the source. -/
def domContentLoaded (d : Doc) : Doc :=
  let loginBtn := List.lookup "loginBtn" d
  let signupBtn := List.lookup "signupBtn" d
  let d1 :=
    if loginBtn.isSome then
      updateElem d "loginBtn" (setOnclick (Handler.openModalH "loginModal"))
    else d
  if signupBtn.isSome then
    updateElem d1 "signupBtn" (setOnclick (Handler.openModalH "signupModal"))
  else d1

/-- `Math.min((current / total) * 100, 100)` — the percentage
`updateUsageBar` computes. -/
def usagePercentage (current total : JSNum) : JSNum :=
  JSNum.jsMin (JSNum.jsMul (JSNum.jsDiv current total) (JSNum.num 100)) (JSNum.num 100)

/-- The background color chosen by the `if`/`else if`/`else` chain:
`percentage < 30` → green, `else percentage < 70` → amber, `else` red. -/
def usageColor (p : JSNum) : String :=
  if JSNum.jsLt p (JSNum.num 30) then "#28a745"
  else if JSNum.jsLt p (JSNum.num 70) then "#ffc107"
  else "#dc3545"

/-- `function updateUsageBar(current, total)`: look up `usageBar`; if
absent return; otherwise set its width to `percentage + "%"` and its
background color by the threshold chain.  The JS function returns
`undefined`; the model passes the document state explicitly. -/
def updateUsageBar (current total : JSNum) (d : Doc) : Doc :=
  match List.lookup "usageBar" d with
  | none => d
  | some _ =>
    let percentage := usagePercentage current total
    let d1 := updateElem d "usageBar"
      (setWidth (JSNum.jsNumToString percentage ++ "%"))
    updateElem d1 "usageBar" (setBG (usageColor percentage))

/-- Modelled from the spec (§8): the percentage the specification
prescribes for `total > 0`, as exact rational arithmetic:
`min(current/total*100, 100)`. -/
def specPercentage (current total : ℚ) : ℚ :=
  min (current / total * 100) 100

/-- A modal call in a call sequence: `openModal(id)` or `closeModal(id)`. -/
inductive ModalCall where
  | openC
  | closeC
deriving DecidableEq

/-- Apply one modal call for a fixed id. -/
def applyModalCall (id : String) (c : ModalCall) (d : Doc) : Except JSError Doc :=
  match c with
  | ModalCall.openC => openModal id d
  | ModalCall.closeC => closeModal id d

/-- Run a sequence of modal calls for a fixed id, stopping at the first
error. -/
def runModalCalls (id : String) (d : Doc) : List ModalCall → Except JSError Doc
  | [] => Except.ok d
  | c :: rest =>
    match applyModalCall id c d with
    | Except.error e => Except.error e
    | Except.ok d1 => runModalCalls id d1 rest

/-- The display value a modal call establishes. -/
def modalDisplay : ModalCall → String
  | ModalCall.openC => "flex"
  | ModalCall.closeC => "none"

/-- A plain element used in concrete test documents. -/
def mkElem : Element :=
  { style := { display := "none", width := "0%", backgroundColor := "#ffffff" }
    onclick := none }

/-- A concrete view tree holding every element the script addresses. -/
def sampleDoc : Doc :=
  [("usageBar", mkElem), ("loginBtn", mkElem),
   ("signupBtn", mkElem), ("termsModal", mkElem)]

/-! ## Basic lemmas about the association-list view tree -/

theorem lookup_updateElem_self (d : Doc) (id : String) (f : Element → Element) :
    List.lookup id (updateElem d id f) = (List.lookup id d).map f := by
  induction d with
  | nil => rfl
  | cons p rest ih =>
    obtain ⟨k, e⟩ := p
    by_cases h : k = id
    · subst h
      simp [updateElem, List.lookup]
    · have hb : (id == k) = false := by
        simp [Ne.symm h]
      simp [updateElem, h, List.lookup, hb, ih]

theorem lookup_updateElem_ne (d : Doc) (id id' : String) (f : Element → Element)
    (h : id ≠ id') :
    List.lookup id (updateElem d id' f) = List.lookup id d := by
  induction d with
  | nil => rfl
  | cons p rest ih =>
    obtain ⟨k, e⟩ := p
    by_cases hk : k = id'
    · subst hk
      have hb : (id == k) = false := by
        simp [h]
      simp [updateElem, List.lookup, hb]
    · simp only [updateElem, if_neg hk, List.lookup]
      rw [ih]

theorem updateElem_updateElem (d : Doc) (id : String) (f g : Element → Element) :
    updateElem (updateElem d id f) id g = updateElem d id (fun e => g (f e)) := by
  induction d with
  | nil => rfl
  | cons p rest ih =>
    obtain ⟨k, e⟩ := p
    by_cases h : k = id
    · simp [updateElem, h]
    · simp [updateElem, h, ih]

theorem isSome_lookup_updateElem (d : Doc) (id id' : String) (f : Element → Element) :
    (List.lookup id (updateElem d id' f)).isSome = (List.lookup id d).isSome := by
  by_cases h : id = id'
  · subst h
    rw [lookup_updateElem_self]
    cases List.lookup id d <;> rfl
  · rw [lookup_updateElem_ne d id id' f h]

/-! ## Evaluation lemmas for the JS number model -/

theorem jsMin_num_num (a b : ℚ) :
    JSNum.jsMin (JSNum.num a) (JSNum.num b) = JSNum.num (min a b) := by
  simp only [JSNum.jsMin, JSNum.jsLt]
  by_cases h : a < b
  · simp [h, min_eq_left (le_of_lt h)]
  · simp [h, min_eq_right (not_lt.mp h)]

theorem usagePercentage_num (c t : ℚ) (h : t ≠ 0) :
    usagePercentage (JSNum.num c) (JSNum.num t) =
      JSNum.num (min (c / t * 100) 100) := by
  unfold usagePercentage
  rw [show JSNum.jsDiv (JSNum.num c) (JSNum.num t) = JSNum.num (c / t) from by
    simp [JSNum.jsDiv, h]]
  rw [show JSNum.jsMul (JSNum.num (c / t)) (JSNum.num 100) = JSNum.num (c / t * 100) from
    rfl]
  exact jsMin_num_num _ _

theorem usagePercentage_pos_zero (c : ℚ) (h : 0 < c) :
    usagePercentage (JSNum.num c) (JSNum.num 0) = JSNum.num 100 := by
  unfold usagePercentage
  rw [show JSNum.jsDiv (JSNum.num c) (JSNum.num 0) = JSNum.inf from by
    simp [JSNum.jsDiv, h.ne', h]]
  rw [show JSNum.jsMul JSNum.inf (JSNum.num 100) = JSNum.inf from by
    norm_num [JSNum.jsMul]]
  rfl

theorem usagePercentage_zero_zero :
    usagePercentage (JSNum.num 0) (JSNum.num 0) = JSNum.nan := by
  unfold usagePercentage
  rw [show JSNum.jsDiv (JSNum.num 0) (JSNum.num 0) = JSNum.nan from by
    simp [JSNum.jsDiv]]
  rfl

theorem lookup_usageBar_updateUsageBar (c t : JSNum) (d : Doc) (e : Element)
    (h : List.lookup "usageBar" d = some e) :
    List.lookup "usageBar" (updateUsageBar c t d) =
      some (setBG (usageColor (usagePercentage c t))
        (setWidth (JSNum.jsNumToString (usagePercentage c t) ++ "%") e)) := by
  unfold updateUsageBar
  simp only [h, lookup_updateElem_self, Option.map_some']

theorem updateUsageBar_not_found (c t : JSNum) (d : Doc)
    (h : List.lookup "usageBar" d = none) :
    updateUsageBar c t d = d := by
  unfold updateUsageBar
  rw [h]

theorem updateUsageBar_eq_of_found (c t : JSNum) (d : Doc) (e : Element)
    (h : List.lookup "usageBar" d = some e) :
    updateUsageBar c t d =
      updateElem (updateElem d "usageBar"
          (setWidth (JSNum.jsNumToString (usagePercentage c t) ++ "%")))
        "usageBar" (setBG (usageColor (usagePercentage c t))) := by
  unfold updateUsageBar
  rw [h]

/-! ## C1 — missing-id behavior of `openModal` / `closeModal` -/

/-- C1, counterexample: on the empty view tree, `openModal "loginModal"`
raises a `TypeError` (the element lookup returns null and the `.style`
access throws) instead of being a silent no-op, and so does
`closeModal "loginModal"`.  This refutes the claim that calls with a
missing id do not raise. -/
theorem openModal_missing_id_not_silent :
    openModal "loginModal" [] = Except.error JSError.typeError ∧
    closeModal "loginModal" [] = Except.error JSError.typeError :=
  ⟨rfl, rfl⟩

/-- C1, amended: for every dialog identifier with no corresponding
element in the view tree, `openModal` raises a `TypeError` (null `.style`
access), and likewise `closeModal`.  Neither call is a silent no-op. -/
theorem openModal_closeModal_missing_id_raises (d : Doc) (id : String)
    (h : List.lookup id d = none) :
    openModal id d = Except.error JSError.typeError ∧
    closeModal id d = Except.error JSError.typeError := by
  unfold openModal closeModal
  rw [h]
  exact ⟨rfl, rfl⟩

/-- C1, witness: the amended theorem applied to the empty view tree. -/
theorem openModal_closeModal_missing_id_raises_witness :
    List.lookup "signupModal" ([] : Doc) = none ∧
    (openModal "signupModal" [] = Except.error JSError.typeError ∧
     closeModal "signupModal" [] = Except.error JSError.typeError) :=
  ⟨rfl, openModal_closeModal_missing_id_raises [] "signupModal" rfl⟩

/-! ## C5 — `showTerms` is `openModal "termsModal"` -/

/-- C5: calling `showTerms` has exactly the same observable effect on the
view tree as calling `openModal "termsModal"`: the two functions agree on
every view tree. -/
theorem showTerms_eq_openModal_termsModal :
    ∀ d : Doc, showTerms d = openModal "termsModal" d :=
  fun _ => rfl

/-! ## C6 — `updateUsageBar` with no `usageBar` element -/

/-- C6: for every pair of inputs, when no element with id `usageBar`
exists in the view tree, `updateUsageBar` returns the view tree unchanged
(the function is total in the model, so no error is raised). -/
theorem updateUsageBar_missing_noop (c t : JSNum) (d : Doc)
    (h : List.lookup "usageBar" d = none) :
    updateUsageBar c t d = d :=
  updateUsageBar_not_found c t d h

/-- C6, witness: `updateUsageBar` on the empty view tree. -/
theorem updateUsageBar_missing_noop_witness :
    List.lookup "usageBar" ([] : Doc) = none ∧
    updateUsageBar (JSNum.num 3) (JSNum.num 4) [] = [] :=
  ⟨rfl, updateUsageBar_missing_noop (JSNum.num 3) (JSNum.num 4) [] rfl⟩

/-! ## C2 — range of the displayed percentage -/

/-- C2, counterexample: for `current = -50, total = 100` the computed
percentage is `-50`, which is negative, and the width written to the
`usageBar` element is the string `-50%`.  `Math.min (x, 100)` clamps only
from above, so the percentage is not confined to `[0, 100]` for inputs of
arbitrary sign. -/
theorem usagePercentage_not_clamped_below :
    usagePercentage (JSNum.num (-50)) (JSNum.num 100) = JSNum.num (-50) ∧
    ((-50:ℚ) < 0) ∧
    (List.lookup "usageBar"
        (updateUsageBar (JSNum.num (-50)) (JSNum.num 100) sampleDoc)).map
      (fun e => e.style.width) = some "-50%" := by
  have harith : ((-50:ℚ)) / 100 * 100 = -50 := by norm_num
  have hp : usagePercentage (JSNum.num (-50)) (JSNum.num 100) = JSNum.num (-50) := by
    rw [usagePercentage_num (-50) 100 (by norm_num), harith,
      min_eq_left (by norm_num : ((-50:ℚ)) ≤ 100)]
  have hs : JSNum.jsNumToString (JSNum.num (-50)) = "-50" := by decide
  refine ⟨hp, by norm_num, ?_⟩
  rw [lookup_usageBar_updateUsageBar _ _ sampleDoc mkElem rfl, hp]
  simp [setBG, setWidth, hs]

/-- C2, amended: for every pair of inputs with `0 ≤ current` and
`0 < total` (of any magnitude, in particular `current > total`), the
percentage `updateUsageBar` writes as the width lies in `[0, 100]`.  For
negative `current` the percentage is still at most 100 but can be
negative: only the upper bound is clamped. -/
theorem usagePercentage_in_range (c t : ℚ) (hc : 0 ≤ c) (ht : 0 < t) :
    ∃ q : ℚ, usagePercentage (JSNum.num c) (JSNum.num t) = JSNum.num q ∧
      0 ≤ q ∧ q ≤ 100 := by
  refine ⟨min (c / t * 100) 100, usagePercentage_num c t ht.ne', ?_, min_le_right _ _⟩
  exact le_min (by positivity) (by norm_num)

/-- C2, witness: the amended theorem at `current = 150, total = 100`. -/
theorem usagePercentage_in_range_witness :
    (0:ℚ) ≤ 150 ∧ (0:ℚ) < 100 ∧
    ∃ q : ℚ, usagePercentage (JSNum.num 150) (JSNum.num 100) = JSNum.num q ∧
      0 ≤ q ∧ q ≤ 100 :=
  ⟨by decide, by decide, usagePercentage_in_range 150 100 (by decide) (by decide)⟩

/-! ## C3 — percentage formula for positive `total` -/

/-- C3, counterexample: `total = 100 > 0` yet for `current = -1` the
percentage is `-1`, outside `[0, 100]`: the second half of the claim
fails for negative `current` even with positive `total`. -/
theorem usagePercentage_negative_at_pos_total :
    (0:ℚ) < 100 ∧
    usagePercentage (JSNum.num (-1)) (JSNum.num 100) = JSNum.num (-1) ∧
    ¬ (0 ≤ (-1:ℚ)) := by
  have harith : ((-1:ℚ)) / 100 * 100 = -1 := by norm_num
  refine ⟨by norm_num, ?_, by norm_num⟩
  rw [usagePercentage_num (-1) 100 (by norm_num), harith,
    min_eq_left (by norm_num : ((-1:ℚ)) ≤ 100)]

/-- C3, amended: for all `current, total` with `total > 0`, the computed
percentage equals `min (current / total * 100, 100)` exactly, and it is
always at most 100; it lies in `[0, 100]` when additionally
`current ≥ 0`. -/
theorem usagePercentage_eq_spec_min (c t : ℚ) (ht : 0 < t) :
    usagePercentage (JSNum.num c) (JSNum.num t) = JSNum.num (specPercentage c t) ∧
    specPercentage c t ≤ 100 ∧
    (0 ≤ c → 0 ≤ specPercentage c t) := by
  unfold specPercentage
  refine ⟨usagePercentage_num c t ht.ne', min_le_right _ _, fun hc => ?_⟩
  exact le_min (by positivity) (by norm_num)

/-- C3, witness: the amended theorem at `current = 50, total = 200`. -/
theorem usagePercentage_eq_spec_min_witness :
    (0:ℚ) < 200 ∧
    (usagePercentage (JSNum.num 50) (JSNum.num 200) =
        JSNum.num (specPercentage 50 200) ∧
      specPercentage 50 200 ≤ 100 ∧
      (0 ≤ (50:ℚ) → 0 ≤ specPercentage 50 200)) :=
  ⟨by decide, usagePercentage_eq_spec_min 50 200 (by decide)⟩

/-! ## Further helper lemmas -/

theorem usagePercentage_of_hundred (c : ℚ) (h : c ≤ 100) :
    usagePercentage (JSNum.num c) (JSNum.num 100) = JSNum.num c := by
  rw [usagePercentage_num c 100 (by norm_num)]
  have hc : c / 100 * 100 = c := by field_simp
  rw [hc, min_eq_left h]

theorem jsLe_imp_not_jsLt (a b : JSNum) (h : JSNum.jsLe a b = true) :
    JSNum.jsLt b a = false := by
  cases a <;> cases b <;> simp_all [JSNum.jsLe, JSNum.jsLt]

/-! ## C4 — color tier thresholds -/

/-- C4: the background color is assigned by threshold on the computed
percentage under JS comparison semantics: `percentage < 30` gives the
safe green `#28a745`, `30 ≤ percentage < 70` gives the warning amber
`#ffc107`, and `percentage ≥ 70` gives the critical red `#dc3545`; in
particular, on a view tree with a `usageBar` element and `total = 100`,
`current = 29` paints green, `current = 30` and `current = 69` paint
amber, and `current = 70` paints red. -/
theorem usageColor_tiers : ∀ p : JSNum,
    (JSNum.jsLt p (JSNum.num 30) = true → usageColor p = "#28a745") ∧
    (JSNum.jsLe (JSNum.num 30) p = true → JSNum.jsLt p (JSNum.num 70) = true →
      usageColor p = "#ffc107") ∧
    (JSNum.jsLe (JSNum.num 70) p = true → usageColor p = "#dc3545") ∧
    ((List.lookup "usageBar"
        (updateUsageBar (JSNum.num 29) (JSNum.num 100) sampleDoc)).map
      (fun e => e.style.backgroundColor) = some "#28a745") ∧
    ((List.lookup "usageBar"
        (updateUsageBar (JSNum.num 30) (JSNum.num 100) sampleDoc)).map
      (fun e => e.style.backgroundColor) = some "#ffc107") ∧
    ((List.lookup "usageBar"
        (updateUsageBar (JSNum.num 69) (JSNum.num 100) sampleDoc)).map
      (fun e => e.style.backgroundColor) = some "#ffc107") ∧
    ((List.lookup "usageBar"
        (updateUsageBar (JSNum.num 70) (JSNum.num 100) sampleDoc)).map
      (fun e => e.style.backgroundColor) = some "#dc3545") := by
  intro p
  refine ⟨?_, ?_, ?_, ?_, ?_, ?_, ?_⟩
  · intro h
    unfold usageColor
    rw [if_pos h]
  · intro h30 h70
    have h1 : JSNum.jsLt p (JSNum.num 30) = false := jsLe_imp_not_jsLt _ _ h30
    simp [usageColor, h1, h70]
  · intro h
    have h1 : JSNum.jsLt p (JSNum.num 30) = false := by
      cases p <;> simp_all [JSNum.jsLe, JSNum.jsLt]
      linarith
    have h2 : JSNum.jsLt p (JSNum.num 70) = false := jsLe_imp_not_jsLt _ _ h
    simp [usageColor, h1, h2]
  · rw [lookup_usageBar_updateUsageBar _ _ sampleDoc mkElem rfl,
      usagePercentage_of_hundred 29 (by norm_num)]
    simp [setBG, setWidth]
    decide
  · rw [lookup_usageBar_updateUsageBar _ _ sampleDoc mkElem rfl,
      usagePercentage_of_hundred 30 (by norm_num)]
    simp [setBG, setWidth]
    decide
  · rw [lookup_usageBar_updateUsageBar _ _ sampleDoc mkElem rfl,
      usagePercentage_of_hundred 69 (by norm_num)]
    simp [setBG, setWidth]
    decide
  · rw [lookup_usageBar_updateUsageBar _ _ sampleDoc mkElem rfl,
      usagePercentage_of_hundred 70 (by norm_num)]
    simp [setBG, setWidth]
    decide

/-- C4, witness: the three threshold implications at `12`, `45` and `85`. -/
theorem usageColor_tiers_witness :
    (JSNum.jsLt (JSNum.num 12) (JSNum.num 30) = true ∧
      usageColor (JSNum.num 12) = "#28a745") ∧
    (JSNum.jsLe (JSNum.num 30) (JSNum.num 45) = true ∧
      JSNum.jsLt (JSNum.num 45) (JSNum.num 70) = true ∧
      usageColor (JSNum.num 45) = "#ffc107") ∧
    (JSNum.jsLe (JSNum.num 70) (JSNum.num 85) = true ∧
      usageColor (JSNum.num 85) = "#dc3545") :=
  ⟨⟨by decide, (usageColor_tiers (JSNum.num 12)).1 (by decide)⟩,
   ⟨by decide, by decide,
     (usageColor_tiers (JSNum.num 45)).2.1 (by decide) (by decide)⟩,
   ⟨by decide, (usageColor_tiers (JSNum.num 85)).2.2.1 (by decide)⟩⟩

/-! ## C9 — zero `total` -/

/-- C9: with `total = 0` and `current > 0`, the JS evaluation gives
`min(+Infinity, 100) = 100`, so the width written to the `usageBar`
element is `100%` with the critical color `#dc3545`; with
`total = 0` and `current = 0`, the percentage is `NaN`, the width is
`NaN%`, and the color is still `#dc3545` because both `NaN < 30` and
`NaN < 70` are false. -/
theorem updateUsageBar_zero_total (c : ℚ) (hc : 0 < c) (d : Doc) (e : Element)
    (h : List.lookup "usageBar" d = some e) :
    (usagePercentage (JSNum.num c) (JSNum.num 0) = JSNum.num 100 ∧
     ∃ e2, List.lookup "usageBar"
         (updateUsageBar (JSNum.num c) (JSNum.num 0) d) = some e2 ∧
       e2.style.width = "100%" ∧ e2.style.backgroundColor = "#dc3545") ∧
    (usagePercentage (JSNum.num 0) (JSNum.num 0) = JSNum.nan ∧
     ∃ e2, List.lookup "usageBar"
         (updateUsageBar (JSNum.num 0) (JSNum.num 0) d) = some e2 ∧
       e2.style.width = "NaN%" ∧ e2.style.backgroundColor = "#dc3545") := by
  have hp1 := usagePercentage_pos_zero c hc
  have hp2 := usagePercentage_zero_zero
  constructor
  · refine ⟨hp1, ⟨_, lookup_usageBar_updateUsageBar _ _ d e h, ?_, ?_⟩⟩
    · simp [setBG, setWidth, hp1]
      decide
    · simp [setBG, setWidth, hp1]
      decide
  · refine ⟨hp2, ⟨_, lookup_usageBar_updateUsageBar _ _ d e h, ?_, ?_⟩⟩
    · simp [setBG, setWidth, hp2]
      decide
    · simp [setBG, setWidth, hp2]
      decide

/-- C9, witness: the theorem at `current = 5` on the concrete view
tree. -/
theorem updateUsageBar_zero_total_witness :
    (0:ℚ) < 5 ∧ List.lookup "usageBar" sampleDoc = some mkElem ∧
    ((usagePercentage (JSNum.num 5) (JSNum.num 0) = JSNum.num 100 ∧
      ∃ e2, List.lookup "usageBar"
          (updateUsageBar (JSNum.num 5) (JSNum.num 0) sampleDoc) = some e2 ∧
        e2.style.width = "100%" ∧ e2.style.backgroundColor = "#dc3545") ∧
     (usagePercentage (JSNum.num 0) (JSNum.num 0) = JSNum.nan ∧
      ∃ e2, List.lookup "usageBar"
          (updateUsageBar (JSNum.num 0) (JSNum.num 0) sampleDoc) = some e2 ∧
        e2.style.width = "NaN%" ∧ e2.style.backgroundColor = "#dc3545")) :=
  ⟨by decide, rfl, updateUsageBar_zero_total 5 (by decide) sampleDoc mkElem rfl⟩

/-! ## C7 — view-ready initialization bindings -/

/-- C7: at view-ready initialization, for every view tree, if a
`loginBtn` trigger exists its `onclick` is wired to open the
`loginModal` dialog, if a `signupBtn` trigger exists its `onclick` is
wired to open the `signupModal` dialog, and when both triggers are
absent the handler changes nothing (the handler is total, so absence
raises no error); an installed handler runs exactly `openModal` on its
dialog id. -/
theorem domContentLoaded_bindings : ∀ d : Doc,
    ((List.lookup "loginBtn" d).isSome = true →
      (List.lookup "loginBtn" (domContentLoaded d)).map (fun e => e.onclick) =
        some (some (Handler.openModalH "loginModal"))) ∧
    ((List.lookup "signupBtn" d).isSome = true →
      (List.lookup "signupBtn" (domContentLoaded d)).map (fun e => e.onclick) =
        some (some (Handler.openModalH "signupModal"))) ∧
    ((List.lookup "loginBtn" d).isSome = false →
      (List.lookup "signupBtn" d).isSome = false → domContentLoaded d = d) ∧
    (∀ (d2 : Doc) (id2 : String),
      runHandler (Handler.openModalH id2) d2 = openModal id2 d2) := by
  intro d
  refine ⟨?_, ?_, ?_, fun d2 id2 => rfl⟩
  · intro hl
    obtain ⟨e, he⟩ := Option.isSome_iff_exists.mp hl
    unfold domContentLoaded
    rcases Bool.eq_false_or_eq_true ((List.lookup "signupBtn" d).isSome) with hs | hs <;>
      simp [hl, hs, lookup_updateElem_ne _ "loginBtn" "signupBtn" _ (by decide),
        lookup_updateElem_self, he, setOnclick]
  · intro hs2
    obtain ⟨e, he⟩ := Option.isSome_iff_exists.mp hs2
    unfold domContentLoaded
    rcases Bool.eq_false_or_eq_true ((List.lookup "loginBtn" d).isSome) with hl | hl <;>
      simp [hs2, hl, lookup_updateElem_ne _ "signupBtn" "loginBtn" _ (by decide),
        lookup_updateElem_self, he, setOnclick]
  · intro hl hs
    unfold domContentLoaded
    simp [hl, hs]

/-- C7, witness: both bindings on the concrete view tree, and the no-op
case on the empty view tree. -/
theorem domContentLoaded_bindings_witness :
    ((List.lookup "loginBtn" sampleDoc).isSome = true ∧
      (List.lookup "loginBtn" (domContentLoaded sampleDoc)).map (fun e => e.onclick) =
        some (some (Handler.openModalH "loginModal"))) ∧
    ((List.lookup "signupBtn" sampleDoc).isSome = true ∧
      (List.lookup "signupBtn" (domContentLoaded sampleDoc)).map (fun e => e.onclick) =
        some (some (Handler.openModalH "signupModal"))) ∧
    ((List.lookup "loginBtn" ([] : Doc)).isSome = false ∧
      (List.lookup "signupBtn" ([] : Doc)).isSome = false ∧
      domContentLoaded ([] : Doc) = []) :=
  ⟨⟨rfl, (domContentLoaded_bindings sampleDoc).1 rfl⟩,
   ⟨rfl, (domContentLoaded_bindings sampleDoc).2.1 rfl⟩,
   ⟨rfl, rfl, (domContentLoaded_bindings ([] : Doc)).2.2.1 rfl rfl⟩⟩

/-! ## C8 — frame property of `updateUsageBar` -/

/-- C8: for every pair of inputs, `updateUsageBar` touches only the
`usageBar` element: the lookup of every other id is unchanged, and on
the `usageBar` element itself only the `width` and `backgroundColor`
style properties change — its `onclick` slot and its `display` style are
preserved.  (The JS function returns `undefined`; the model returns only
the updated view tree.) -/
theorem updateUsageBar_frame (c t : JSNum) (d : Doc) :
    (∀ id : String, id ≠ "usageBar" →
      List.lookup id (updateUsageBar c t d) = List.lookup id d) ∧
    (∀ e : Element, List.lookup "usageBar" d = some e →
      ∃ e2, List.lookup "usageBar" (updateUsageBar c t d) = some e2 ∧
        e2.onclick = e.onclick ∧ e2.style.display = e.style.display) := by
  constructor
  · intro id hid
    cases hcase : List.lookup "usageBar" d with
    | none => rw [updateUsageBar_not_found c t d hcase]
    | some e0 =>
      rw [updateUsageBar_eq_of_found c t d e0 hcase,
        lookup_updateElem_ne _ id "usageBar" _ hid,
        lookup_updateElem_ne _ id "usageBar" _ hid]
  · intro e he
    exact ⟨_, lookup_usageBar_updateUsageBar c t d e he, rfl, rfl⟩

/-- C8, witness: the frame property at concrete inputs on the concrete
view tree, instantiated for the `loginBtn` element and for the
`usageBar` element itself. -/
theorem updateUsageBar_frame_witness :
    ("loginBtn" ≠ "usageBar" ∧
      List.lookup "loginBtn"
          (updateUsageBar (JSNum.num 1) (JSNum.num 2) sampleDoc) =
        List.lookup "loginBtn" sampleDoc) ∧
    (List.lookup "usageBar" sampleDoc = some mkElem ∧
      ∃ e2, List.lookup "usageBar"
          (updateUsageBar (JSNum.num 1) (JSNum.num 2) sampleDoc) = some e2 ∧
        e2.onclick = mkElem.onclick ∧
        e2.style.display = mkElem.style.display) :=
  ⟨⟨by decide,
    (updateUsageBar_frame (JSNum.num 1) (JSNum.num 2) sampleDoc).1 "loginBtn"
      (by decide)⟩,
   ⟨rfl,
    (updateUsageBar_frame (JSNum.num 1) (JSNum.num 2) sampleDoc).2 mkElem rfl⟩⟩

/-! ## C10 — algebra of modal open/close calls -/

theorem openModal_of_found (id : String) (d : Doc) (e : Element)
    (h : List.lookup id d = some e) :
    openModal id d = Except.ok (updateElem d id (setDisplay "flex")) := by
  unfold openModal
  rw [h]

theorem closeModal_of_found (id : String) (d : Doc) (e : Element)
    (h : List.lookup id d = some e) :
    closeModal id d = Except.ok (updateElem d id (setDisplay "none")) := by
  unfold closeModal
  rw [h]

theorem applyModalCall_of_found (id : String) (c : ModalCall) (d : Doc)
    (e : Element) (h : List.lookup id d = some e) :
    applyModalCall id c d =
      Except.ok (updateElem d id (setDisplay (modalDisplay c))) := by
  cases c
  · exact openModal_of_found id d e h
  · exact closeModal_of_found id d e h

theorem runModalCalls_last (id : String) :
    ∀ (cs : List ModalCall) (d : Doc), (List.lookup id d).isSome = true →
      ∀ c : ModalCall, ∃ d2,
        runModalCalls id d (cs ++ [c]) = Except.ok d2 ∧
        (List.lookup id d2).map (fun e => e.style.display) =
          some (modalDisplay c) := by
  intro cs
  induction cs with
  | nil =>
    intro d h c
    obtain ⟨e, he⟩ := Option.isSome_iff_exists.mp h
    refine ⟨updateElem d id (setDisplay (modalDisplay c)), ?_, ?_⟩
    · show runModalCalls id d [c] = _
      unfold runModalCalls
      rw [applyModalCall_of_found id c d e he]
      rfl
    · rw [lookup_updateElem_self, he]
      rfl
  | cons c0 rest ih =>
    intro d h c
    obtain ⟨e, he⟩ := Option.isSome_iff_exists.mp h
    have h1 : (List.lookup id
        (updateElem d id (setDisplay (modalDisplay c0)))).isSome = true := by
      rw [isSome_lookup_updateElem]
      exact h
    obtain ⟨d2, hrun, hdisp⟩ :=
      ih (updateElem d id (setDisplay (modalDisplay c0))) h1 c
    refine ⟨d2, ?_, hdisp⟩
    show (match applyModalCall id c0 d with
      | Except.error er => Except.error er
      | Except.ok d1 => runModalCalls id d1 (rest ++ [c])) = Except.ok d2
    rw [applyModalCall_of_found id c0 d e he]
    exact hrun

/-- C10: for every dialog id present in the view tree, `openModal` and
`closeModal` are idempotent (running either twice in sequence equals
running it once), and after any nonempty sequence of open/close calls on
that id the display state of the dialog is determined solely by the last
call (`flex` after a final open, `none` after a final close). -/
theorem modal_calls_algebra (d : Doc) (id : String)
    (h : (List.lookup id d).isSome = true) :
    ((openModal id d).bind (openModal id) = openModal id d ∧
     (closeModal id d).bind (closeModal id) = closeModal id d) ∧
    ∀ (cs : List ModalCall) (c : ModalCall),
      ∃ d2, runModalCalls id d (cs ++ [c]) = Except.ok d2 ∧
        (List.lookup id d2).map (fun e => e.style.display) =
          some (modalDisplay c) := by
  obtain ⟨e, he⟩ := Option.isSome_iff_exists.mp h
  have he2f : List.lookup id (updateElem d id (setDisplay "flex")) =
      some (setDisplay "flex" e) := by
    rw [lookup_updateElem_self, he]
    rfl
  have he2n : List.lookup id (updateElem d id (setDisplay "none")) =
      some (setDisplay "none" e) := by
    rw [lookup_updateElem_self, he]
    rfl
  refine ⟨⟨?_, ?_⟩, fun cs c => runModalCalls_last id cs d h c⟩
  · rw [openModal_of_found id d e he]
    show openModal id (updateElem d id (setDisplay "flex")) =
      Except.ok (updateElem d id (setDisplay "flex"))
    have hf : (fun e2 => setDisplay "flex" (setDisplay "flex" e2)) =
        setDisplay "flex" := by
      funext e2
      rfl
    rw [openModal_of_found id _ _ he2f, updateElem_updateElem, hf]
  · rw [closeModal_of_found id d e he]
    show closeModal id (updateElem d id (setDisplay "none")) =
      Except.ok (updateElem d id (setDisplay "none"))
    have hn : (fun e2 => setDisplay "none" (setDisplay "none" e2)) =
        setDisplay "none" := by
      funext e2
      rfl
    rw [closeModal_of_found id _ _ he2n, updateElem_updateElem, hn]

/-- C10, witness: the theorem on the concrete view tree for the
`termsModal` dialog, with the call sequence open-then-close ending
hidden. -/
theorem modal_calls_algebra_witness :
    (List.lookup "termsModal" sampleDoc).isSome = true ∧
    ∃ d2, runModalCalls "termsModal" sampleDoc
        ([ModalCall.openC] ++ [ModalCall.closeC]) = Except.ok d2 ∧
      (List.lookup "termsModal" d2).map (fun e => e.style.display) =
        some (modalDisplay ModalCall.closeC) :=
  ⟨rfl, (modal_calls_algebra sampleDoc "termsModal" rfl).2
    [ModalCall.openC] ModalCall.closeC⟩
